import Mathlib

/-!
Verification of the XDB index-tuple codec header (src/include/access/itup.h).

The development shallowly embeds the layout calculator, the counter
accessors and the attribute-access branch logic of itup.h.  Machine
integers are modelled as `Nat` with explicit `% 2 ^ 64` where the C code
computes modulo 2^64; tuple memory is a byte function `Nat → Nat`
indexed from the start of the tuple, with multi-byte fields in the
modelled platform's native (little-endian) byte order.
-/

namespace XDB

/-- Alignment helper rounding `len` up to the next multiple of `a`.
Modelled from the spec: the C TYPEALIGN family is defined outside the
sources of this repository; the spec describes every boundary used here
as align8, rounding up to the platform maximum-alignment unit, which is
8 bytes on the modelled 64-bit platform. -/
def TYPEALIGN (a len : Nat) : Nat := (len + (a - 1)) / a * a

/-- MAXALIGN rounds up to the platform maximum-alignment unit (8 bytes
on the modelled platform). -/
def MAXALIGN (len : Nat) : Nat := TYPEALIGN 8 len

/-- MAXALIGN64 rounds up to the same 8-byte boundary using 64-bit
arithmetic; on the modelled platform it coincides with MAXALIGN. -/
def MAXALIGN64 (len : Nat) : Nat := TYPEALIGN 8 len

/-- Size in bytes of IndexTupleData (itup.h lines 35-51): a 6-byte
ItemPointerData `t_tid` (two 16-bit block-id halves plus a 16-bit offset
number; itemptr.h is outside these sources, sizes taken from the spec's
layout table) followed by the 16-bit `t_info` field. -/
def sizeof_IndexTupleData : Nat := 8

/-- Size in bytes of IndexAttributeBitMapData (itup.h line 57):
`bits8 bits[(INDEX_MAX_KEYS + 8 - 1) / 8]`.  INDEX_MAX_KEYS is
configured outside these sources, so it stays the parameter `K`. -/
def sizeof_IndexAttributeBitMapData (K : Nat) : Nat := (K + 8 - 1) / 8

/-- Size in bytes of IndexTupleCountData (itup.h lines 62-64): one
uint64 field. -/
def sizeof_IndexTupleCountData : Nat := 8

/-- itup.h line 71. -/
def INDEX_SIZE_MASK : Nat := 0x1FFF

/-- itup.h line 72. -/
def INDEX_HAS_TUPLE_COUNT : Nat := 0x2000

/-- itup.h line 73. -/
def INDEX_VAR_MASK : Nat := 0x4000

/-- itup.h line 74. -/
def INDEX_NULL_MASK : Nat := 0x8000

/-- IndexTupleSize (itup.h line 76), expressed on the `t_info` word of
the tuple. -/
def IndexTupleSize (info : Nat) : Nat := info &&& INDEX_SIZE_MASK

/-- IndexTupleHasTupleCount (itup.h line 78): truthiness of
`t_info & INDEX_HAS_TUPLE_COUNT`. -/
def IndexTupleHasTupleCount (info : Nat) : Bool := info &&& INDEX_HAS_TUPLE_COUNT != 0

/-- IndexTupleHasNulls (itup.h line 79): truthiness of
`t_info & INDEX_NULL_MASK`. -/
def IndexTupleHasNulls (info : Nat) : Bool := info &&& INDEX_NULL_MASK != 0

/-- IndexTupleHasVarwidths (itup.h line 80): truthiness of
`t_info & INDEX_VAR_MASK`. -/
def IndexTupleHasVarwidths (info : Nat) : Bool := info &&& INDEX_VAR_MASK != 0

/-- IndexInfoFindDataOffset (itup.h lines 87-93):
`MAXALIGN(MAXALIGN64(sizeof(IndexTupleData) + (nulls ? sizeof(bitmap) : 0))
 + (count ? sizeof(IndexTupleCountData) : 0))`. -/
def IndexInfoFindDataOffset (K info : Nat) : Nat :=
  MAXALIGN
    (MAXALIGN64 (sizeof_IndexTupleData +
        (if IndexTupleHasNulls info then sizeof_IndexAttributeBitMapData K else 0)) +
      (if IndexTupleHasTupleCount info then sizeof_IndexTupleCountData else 0))

/-- IndexInfoFindTupleCountOffset (itup.h lines 95-104):
`(!(t_info & INDEX_NULL_MASK)) ? MAXALIGN64(sizeof(IndexTupleData))
 : MAXALIGN64(sizeof(IndexTupleData) + sizeof(IndexAttributeBitMapData))`. -/
def IndexInfoFindTupleCountOffset (K info : Nat) : Nat :=
  if !IndexTupleHasNulls info then MAXALIGN64 sizeof_IndexTupleData
  else MAXALIGN64 (sizeof_IndexTupleData + sizeof_IndexAttributeBitMapData K)

/-- The spec's align8: round up to the next multiple of 8. -/
def align8 (x : Nat) : Nat := (x + 7) / 8 * 8

/-- Spec formula for the data-region offset, written from the spec's
words: `align8( align8(header_size + (has_nulls ? bitmap_size : 0)) +
(has_count ? counter_size : 0) )` with `bitmap_size = ceil(K/8)` and
`counter_size = 8`. -/
def data_offset_spec (K info : Nat) : Nat :=
  align8 (align8 (sizeof_IndexTupleData +
      (if IndexTupleHasNulls info then (K + 7) / 8 else 0)) +
    (if IndexTupleHasTupleCount info then 8 else 0))

/-- Spec formula for the counter-region offset, written from the spec's
words: `align8(header_size + (has_nulls ? bitmap_size : 0))`. -/
def counter_offset_spec (K info : Nat) : Nat :=
  align8 (sizeof_IndexTupleData +
    (if IndexTupleHasNulls info then (K + 7) / 8 else 0))

/-- The claim C1 equality, proved for both flag combinations. -/
theorem dataOffset_eq_spec (K info : Nat) :
    IndexInfoFindDataOffset K info = data_offset_spec K info := by
  cases hn : IndexTupleHasNulls info <;> cases hc : IndexTupleHasTupleCount info <;>
    simp [IndexInfoFindDataOffset, data_offset_spec, align8,
      MAXALIGN, MAXALIGN64, TYPEALIGN, sizeof_IndexTupleData,
      sizeof_IndexAttributeBitMapData, sizeof_IndexTupleCountData, hn, hc] <;> omega

/-- C1: for every 16-bit header info value (and every bitmap capacity
parameter K), the data-region offset computed by the Layout Calculator
equals `align8( align8(header_size + (HAS_NULLS ? bitmap_size : 0)) +
(HAS_COUNT ? counter_size : 0) )` with `header_size` the size of the
fixed tuple header, `bitmap_size = ceil(K/8)` and `counter_size = 8`. -/
theorem c1_data_offset (K info : Nat) (h : info < 2 ^ 16) :
    IndexInfoFindDataOffset K info = data_offset_spec K info :=
  dataOffset_eq_spec K info

/-- Witness for C1 at K = 32, info = 0xF123. -/
theorem c1_data_offset_witness :
    IndexInfoFindDataOffset 32 0xF123 = data_offset_spec 32 0xF123 :=
  c1_data_offset 32 0xF123 (by decide)

/-- C4: for every 16-bit header info value with HAS_COUNT set, the
counter-region offset computed by the Layout Calculator equals
`align8(header_size + (HAS_NULLS ? bitmap_size : 0))`. -/
theorem c4_counter_offset (K info : Nat) (h : info < 2 ^ 16)
    (hc : IndexTupleHasTupleCount info = true) :
    IndexInfoFindTupleCountOffset K info = counter_offset_spec K info := by
  cases hn : IndexTupleHasNulls info <;>
    simp [IndexInfoFindTupleCountOffset, counter_offset_spec,
      align8, MAXALIGN64, TYPEALIGN, sizeof_IndexTupleData,
      sizeof_IndexAttributeBitMapData, hn] <;> omega

/-- Witness for C4 at K = 32, info = 0xA005 (HAS_NULLS and HAS_COUNT
set). -/
theorem c4_counter_offset_witness :
    IndexInfoFindTupleCountOffset 32 0xA005 = counter_offset_spec 32 0xA005 :=
  c4_counter_offset 32 0xA005 (by decide) (by decide)

/-- The HAS_NULLS test reads exactly bit 15 of the info word. -/
theorem hasNulls_eq_testBit (info : Nat) :
    IndexTupleHasNulls info = info.testBit 15 := by
  have h : INDEX_NULL_MASK = 2 ^ 15 := by norm_num [INDEX_NULL_MASK]
  unfold IndexTupleHasNulls
  rw [h, Nat.and_two_pow]
  cases hb : info.testBit 15 <;> simp [hb]

/-- The HAS_COUNT test reads exactly bit 13 of the info word. -/
theorem hasCount_eq_testBit (info : Nat) :
    IndexTupleHasTupleCount info = info.testBit 13 := by
  have h : INDEX_HAS_TUPLE_COUNT = 2 ^ 13 := by norm_num [INDEX_HAS_TUPLE_COUNT]
  unfold IndexTupleHasTupleCount
  rw [h, Nat.and_two_pow]
  cases hb : info.testBit 13 <;> simp [hb]

/-- Xor with the HAS_VARWIDTH bit leaves every other bit unchanged. -/
theorem testBit_xor_varwidth (info j : Nat) (hj : j ≠ 14) :
    (info ^^^ 2 ^ 14).testBit j = info.testBit j := by
  rw [Nat.testBit_xor, Nat.testBit_two_pow_of_ne (by omega : 14 ≠ j)]
  simp

/-- Both layout offsets depend on the info word only through the two
flag tests. -/
theorem offsets_congr (K a b : Nat)
    (hn : IndexTupleHasNulls a = IndexTupleHasNulls b)
    (hc : IndexTupleHasTupleCount a = IndexTupleHasTupleCount b) :
    IndexInfoFindDataOffset K a = IndexInfoFindDataOffset K b ∧
      IndexInfoFindTupleCountOffset K a = IndexInfoFindTupleCountOffset K b := by
  unfold IndexInfoFindDataOffset IndexInfoFindTupleCountOffset
  rw [hn, hc]
  exact ⟨rfl, rfl⟩

/-- C8: the two region offsets are functions of the HAS_NULLS and
HAS_COUNT bits only: flipping the HAS_VARWIDTH bit (bit 14), or moving
to any info word that agrees on bits 13 and above (so differs only in
the 13 SIZE bits), changes neither offset. -/
theorem c8_offsets_flag_only (K info : Nat) (h : info < 2 ^ 16) :
    (IndexInfoFindDataOffset K (info ^^^ 2 ^ 14) = IndexInfoFindDataOffset K info ∧
      IndexInfoFindTupleCountOffset K (info ^^^ 2 ^ 14) =
        IndexInfoFindTupleCountOffset K info) ∧
    ∀ info2, info2 < 2 ^ 16 → info2 >>> 13 = info >>> 13 →
      IndexInfoFindDataOffset K info2 = IndexInfoFindDataOffset K info ∧
        IndexInfoFindTupleCountOffset K info2 = IndexInfoFindTupleCountOffset K info := by
  constructor
  · apply offsets_congr
    · rw [hasNulls_eq_testBit, hasNulls_eq_testBit,
        testBit_xor_varwidth _ _ (by omega)]
    · rw [hasCount_eq_testBit, hasCount_eq_testBit,
        testBit_xor_varwidth _ _ (by omega)]
  · intro info2 h2 hs
    apply offsets_congr
    · rw [hasNulls_eq_testBit, hasNulls_eq_testBit]
      have e := congrArg (fun t => Nat.testBit t 2) hs
      simpa using e
    · rw [hasCount_eq_testBit, hasCount_eq_testBit]
      have e := congrArg (fun t => Nat.testBit t 0) hs
      simpa using e

/-- Witness for C8 at K = 32, info = 0x1234, second info word 0x0FFF
(same bits 13-15, different SIZE bits). -/
theorem c8_offsets_flag_only_witness :
    IndexInfoFindDataOffset 32 (0x1234 ^^^ 2 ^ 14) = IndexInfoFindDataOffset 32 0x1234 ∧
      IndexInfoFindDataOffset 32 0x0FFF = IndexInfoFindDataOffset 32 0x1234 :=
  ⟨(c8_offsets_flag_only 32 0x1234 (by decide)).1.1,
   ((c8_offsets_flag_only 32 0x1234 (by decide)).2 0x0FFF (by decide) (by decide)).1⟩

/-- Rounding up to an 8-byte boundary never shrinks. -/
theorem le_TYPEALIGN8 (x : Nat) : x ≤ TYPEALIGN 8 x := by
  unfold TYPEALIGN; omega

/-- The 8-byte rounding always lands on a multiple of 8. -/
theorem TYPEALIGN8_mod (x : Nat) : TYPEALIGN 8 x % 8 = 0 := by
  unfold TYPEALIGN; omega

/-- The counter offset is at least the header size. -/
theorem countOffset_ge_header (K info : Nat) :
    sizeof_IndexTupleData ≤ IndexInfoFindTupleCountOffset K info := by
  cases hn : IndexTupleHasNulls info <;>
    simp [IndexInfoFindTupleCountOffset, MAXALIGN64, TYPEALIGN,
      sizeof_IndexTupleData, sizeof_IndexAttributeBitMapData, hn] <;> omega

/-- With HAS_NULLS set, the counter offset clears the header plus the
whole bitmap. -/
theorem countOffset_ge_bitmap (K info : Nat) (hn : IndexTupleHasNulls info = true) :
    sizeof_IndexTupleData + sizeof_IndexAttributeBitMapData K ≤
      IndexInfoFindTupleCountOffset K info := by
  simp [IndexInfoFindTupleCountOffset, MAXALIGN64, TYPEALIGN,
    sizeof_IndexTupleData, sizeof_IndexAttributeBitMapData, hn]
  omega

/-- With HAS_COUNT set, the data offset clears the counter region. -/
theorem countOffset_add_counter_le_dataOffset (K info : Nat)
    (hc : IndexTupleHasTupleCount info = true) :
    IndexInfoFindTupleCountOffset K info + 8 ≤ IndexInfoFindDataOffset K info := by
  cases hn : IndexTupleHasNulls info <;>
    simp [IndexInfoFindDataOffset, IndexInfoFindTupleCountOffset, MAXALIGN,
      MAXALIGN64, TYPEALIGN, sizeof_IndexTupleData,
      sizeof_IndexAttributeBitMapData, sizeof_IndexTupleCountData, hn, hc] <;>
    omega

/-- The data offset is at least the header size. -/
theorem dataOffset_ge_header (K info : Nat) :
    sizeof_IndexTupleData ≤ IndexInfoFindDataOffset K info := by
  cases hn : IndexTupleHasNulls info <;> cases hc : IndexTupleHasTupleCount info <;>
    simp [IndexInfoFindDataOffset, MAXALIGN, MAXALIGN64, TYPEALIGN,
      sizeof_IndexTupleData, sizeof_IndexAttributeBitMapData,
      sizeof_IndexTupleCountData, hn, hc] <;> omega

/-- With HAS_NULLS set, the data offset clears the header plus the whole
bitmap. -/
theorem dataOffset_ge_bitmap (K info : Nat) (hn : IndexTupleHasNulls info = true) :
    sizeof_IndexTupleData + sizeof_IndexAttributeBitMapData K ≤
      IndexInfoFindDataOffset K info := by
  cases hc : IndexTupleHasTupleCount info <;>
    simp [IndexInfoFindDataOffset, MAXALIGN, MAXALIGN64, TYPEALIGN,
      sizeof_IndexTupleData, sizeof_IndexAttributeBitMapData,
      sizeof_IndexTupleCountData, hn, hc] <;> omega

/-- C10: the computed regions are aligned and never overlap: the counter
offset is a multiple of 8 and, when HAS_NULLS is set, at least
header size plus bitmap size; the data offset is a multiple of the
platform maximum-alignment unit (8 on the modelled platform); and when
HAS_COUNT is set the data offset is at least counter offset + 8, so the
8 counter bytes lie strictly between the header/bitmap region and the
attribute-data region. -/
theorem c10_region_invariants (K info : Nat) :
    IndexInfoFindTupleCountOffset K info % 8 = 0 ∧
    (IndexTupleHasNulls info = true →
      sizeof_IndexTupleData + sizeof_IndexAttributeBitMapData K ≤
        IndexInfoFindTupleCountOffset K info) ∧
    IndexInfoFindDataOffset K info % 8 = 0 ∧
    (IndexTupleHasTupleCount info = true →
      IndexInfoFindTupleCountOffset K info + 8 ≤ IndexInfoFindDataOffset K info) := by
  refine ⟨?_, countOffset_ge_bitmap K info, ?_,
    countOffset_add_counter_le_dataOffset K info⟩
  · unfold IndexInfoFindTupleCountOffset MAXALIGN64
    split <;> exact TYPEALIGN8_mod _
  · unfold IndexInfoFindDataOffset MAXALIGN
    exact TYPEALIGN8_mod _

/-- Witness for C10 at K = 32, info = 0xA000 (HAS_NULLS and HAS_COUNT
set). -/
theorem c10_region_invariants_witness :
    IndexInfoFindTupleCountOffset 32 0xA000 % 8 = 0 ∧
    sizeof_IndexTupleData + sizeof_IndexAttributeBitMapData 32 ≤
      IndexInfoFindTupleCountOffset 32 0xA000 ∧
    IndexInfoFindDataOffset 32 0xA000 % 8 = 0 ∧
    IndexInfoFindTupleCountOffset 32 0xA000 + 8 ≤ IndexInfoFindDataOffset 32 0xA000 :=
  ⟨(c10_region_invariants 32 0xA000).1,
   (c10_region_invariants 32 0xA000).2.1 (by decide),
   (c10_region_invariants 32 0xA000).2.2.1,
   (c10_region_invariants 32 0xA000).2.2.2 (by decide)⟩

/-- Little-endian 16-bit read at byte offset `o` of a tuple's memory
(native byte order of the modelled platform). -/
def readU16 (m : Nat → Nat) (o : Nat) : Nat := m o + m (o + 1) * 256

/-- The t_info field of a tuple: the 16-bit word at byte offset 6,
right after the 6-byte ItemPointerData (itup.h lines 37-49). -/
def t_info (m : Nat → Nat) : Nat := readU16 m 6

/-- Little-endian 64-bit read at byte offset `o`, the embedding of
dereferencing `(uint64 *)((char *) tup + o)`. -/
def readU64 (m : Nat → Nat) (o : Nat) : Nat :=
  m o + m (o + 1) * 256 + m (o + 2) * 65536 + m (o + 3) * 16777216 +
    m (o + 4) * 4294967296 + m (o + 5) * 1099511627776 +
    m (o + 6) * 281474976710656 + m (o + 7) * 72057594037927936

/-- Little-endian 64-bit store at byte offset `o`, the embedding of
assigning through `(uint64 *)((char *) tup + o)`: the 8 bytes starting
at `o` receive the digits of `v`, every other byte is untouched. -/
def writeU64 (o v : Nat) (m : Nat → Nat) : Nat → Nat :=
  fun a => if o ≤ a ∧ a < o + 8 then (v >>> ((a - o) * 8)) % 256 else m a

/-- index_tuple_get_count (itup.h lines 176-179).  `none` models the
Assert(IndexTupleHasTupleCount(tup)) tripping. -/
def index_tuple_get_count (K : Nat) (m : Nat → Nat) : Option Nat :=
  if IndexTupleHasTupleCount (t_info m) then
    some (readU64 m (IndexInfoFindTupleCountOffset K (t_info m)))
  else none

/-- index_tuple_set_count (itup.h lines 181-184).  The stored uint64
argument is reduced modulo 2^64; `none` models the Assert tripping. -/
def index_tuple_set_count (K : Nat) (m : Nat → Nat) (tuple_count : Nat) :
    Option (Nat → Nat) :=
  if IndexTupleHasTupleCount (t_info m) then
    some (writeU64 (IndexInfoFindTupleCountOffset K (t_info m))
      (tuple_count % 2 ^ 64) m)
  else none

/-- index_tuple_add_count (itup.h lines 186-189): a uint64 read-add-store
through the counter pointer, wrapping modulo 2^64; `none` models the
Assert tripping. -/
def index_tuple_add_count (K : Nat) (m : Nat → Nat) (delta_tuple_count : Nat) :
    Option (Nat → Nat) :=
  if IndexTupleHasTupleCount (t_info m) then
    some (writeU64 (IndexInfoFindTupleCountOffset K (t_info m))
      ((readU64 m (IndexInfoFindTupleCountOffset K (t_info m)) + delta_tuple_count) % 2 ^ 64)
      m)
  else none

/-- C5: each counter accessor requires HAS_COUNT as a precondition; on a
tuple whose HAS_COUNT flag is clear, all three fail fast through the
assertion rather than returning a soft error or a garbage value. -/
theorem c5_counter_accessors_assert (K v d : Nat) (m : Nat → Nat)
    (h : IndexTupleHasTupleCount (t_info m) = false) :
    index_tuple_get_count K m = none ∧
      index_tuple_set_count K m v = none ∧
      index_tuple_add_count K m d = none := by
  simp [index_tuple_get_count, index_tuple_set_count, index_tuple_add_count, h]

/-- Witness for C5: the all-zero tuple memory has HAS_COUNT clear. -/
theorem c5_counter_accessors_assert_witness :
    index_tuple_get_count 32 (fun _ => 0) = none ∧
      index_tuple_set_count 32 (fun _ => 0) 7 = none ∧
      index_tuple_add_count 32 (fun _ => 0) 7 = none :=
  c5_counter_accessors_assert 32 7 7 (fun _ => 0) (by decide)

/-- Bytes outside the 8 written positions are untouched by writeU64. -/
theorem writeU64_frame (o v : Nat) (m : Nat → Nat) (a : Nat)
    (h : a < o ∨ o + 8 ≤ a) : writeU64 o v m a = m a := by
  unfold writeU64
  rw [if_neg]
  omega

/-- Reading back the 8 bytes just stored returns the value modulo 2^64. -/
theorem readU64_writeU64 (o v : Nat) (m : Nat → Nat) :
    readU64 (writeU64 o v m) o = v % 2 ^ 64 := by
  have hw : ∀ i, i < 8 → writeU64 o v m (o + i) = (v >>> (i * 8)) % 256 := by
    intro i hi
    unfold writeU64
    rw [if_pos (by omega)]
    congr 2
    omega
  have h0 : writeU64 o v m o = v % 256 := by
    have h := hw 0 (by omega)
    simpa using h
  unfold readU64
  rw [h0, hw 1 (by omega), hw 2 (by omega), hw 3 (by omega),
    hw 4 (by omega), hw 5 (by omega), hw 6 (by omega), hw 7 (by omega)]
  simp only [Nat.shiftRight_eq_div_pow]
  norm_num
  omega

/-- A store at or beyond byte 8 leaves the t_info word unchanged. -/
theorem t_info_writeU64 (o v : Nat) (m : Nat → Nat) (h : 8 ≤ o) :
    t_info (writeU64 o v m) = t_info m := by
  unfold t_info readU16
  rw [writeU64_frame o v m 6 (by omega), writeU64_frame o v m 7 (by omega)]

/-- C6: on a tuple with HAS_COUNT set whose counter initially reads
`initial`, add_count by d1 and then by d2 leaves get_count equal to
(initial + d1 + d2) modulo 2^64; overflow wraps and is never an
error. -/
theorem c6_add_count_accumulates (K d1 d2 initial : Nat) (m : Nat → Nat)
    (h0 : index_tuple_get_count K m = some initial) :
    ∃ m1 m2, index_tuple_add_count K m d1 = some m1 ∧
      index_tuple_add_count K m1 d2 = some m2 ∧
      index_tuple_get_count K m2 = some ((initial + d1 + d2) % 2 ^ 64) := by
  have hc : IndexTupleHasTupleCount (t_info m) = true := by
    cases hb : IndexTupleHasTupleCount (t_info m)
    · rw [index_tuple_get_count, if_neg (by simp [hb])] at h0
      exact Option.noConfusion h0
    · rfl
  have hini : readU64 m (IndexInfoFindTupleCountOffset K (t_info m)) = initial := by
    rw [index_tuple_get_count, if_pos hc] at h0
    exact Option.some.inj h0
  set off := IndexInfoFindTupleCountOffset K (t_info m) with hoff
  have hoff8 : 8 ≤ off := by
    have h := countOffset_ge_header K (t_info m)
    rw [← hoff] at h
    exact h
  set m1 := writeU64 off ((readU64 m off + d1) % 2 ^ 64) m with hm1
  have hinfo1 : t_info m1 = t_info m := t_info_writeU64 off _ m hoff8
  have hr1 : readU64 m1 off = (initial + d1) % 2 ^ 64 := by
    rw [hm1, readU64_writeU64, hini]
    omega
  set m2 := writeU64 off ((readU64 m1 off + d2) % 2 ^ 64) m1 with hm2
  have hinfo2 : t_info m2 = t_info m := by
    rw [hm2, t_info_writeU64 off _ m1 hoff8, hinfo1]
  have hr2 : readU64 m2 off = (initial + d1 + d2) % 2 ^ 64 := by
    rw [hm2, readU64_writeU64, hr1]
    omega
  refine ⟨m1, m2, ?_, ?_, ?_⟩
  · rw [index_tuple_add_count, if_pos hc, ← hoff]
  · rw [index_tuple_add_count, hinfo1, if_pos hc, ← hoff]
  · rw [index_tuple_get_count, hinfo2, if_pos hc, ← hoff, hr2]

/-- Witness for C6: a concrete tuple memory with HAS_COUNT set (t_info
bytes 0x00, 0x20 at offsets 6-7, counter bytes all zero). -/
theorem c6_add_count_accumulates_witness :
    ∃ m1 m2,
      index_tuple_add_count 32 (fun a => if a = 7 then 32 else 0) 5 = some m1 ∧
      index_tuple_add_count 32 m1 9 = some m2 ∧
      index_tuple_get_count 32 m2 = some ((0 + 5 + 9) % 2 ^ 64) :=
  c6_add_count_accumulates 32 5 9 0 (fun a => if a = 7 then 32 else 0) (by decide)

/-- C7: set_count and add_count modify only the 8 counter bytes at the
counter offset: every byte outside that window (in particular the heap
reference, the whole info word with its SIZE bits and three flag bits,
the null bitmap when present, and every byte of the attribute-data
region) is unchanged. -/
theorem c7_counter_mutation_frame (K v d : Nat) (m m1 m2 : Nat → Nat)
    (hs : index_tuple_set_count K m v = some m1)
    (ha : index_tuple_add_count K m d = some m2) :
    (∀ x, x < IndexInfoFindTupleCountOffset K (t_info m) ∨
        IndexInfoFindTupleCountOffset K (t_info m) + 8 ≤ x →
      m1 x = m x ∧ m2 x = m x) ∧
    t_info m1 = t_info m ∧ t_info m2 = t_info m ∧
    (∀ x, x < sizeof_IndexTupleData → m1 x = m x ∧ m2 x = m x) ∧
    (IndexTupleHasNulls (t_info m) = true →
      ∀ x, sizeof_IndexTupleData ≤ x →
        x < sizeof_IndexTupleData + sizeof_IndexAttributeBitMapData K →
        m1 x = m x ∧ m2 x = m x) ∧
    (∀ x, IndexInfoFindDataOffset K (t_info m) ≤ x → m1 x = m x ∧ m2 x = m x) := by
  have hc : IndexTupleHasTupleCount (t_info m) = true := by
    cases hb : IndexTupleHasTupleCount (t_info m)
    · rw [index_tuple_set_count, if_neg (by simp [hb])] at hs
      exact Option.noConfusion hs
    · rfl
  have hm1 : m1 = writeU64 (IndexInfoFindTupleCountOffset K (t_info m)) (v % 2 ^ 64) m := by
    rw [index_tuple_set_count, if_pos hc] at hs
    exact (Option.some.inj hs).symm
  have hm2 : m2 = writeU64 (IndexInfoFindTupleCountOffset K (t_info m))
      ((readU64 m (IndexInfoFindTupleCountOffset K (t_info m)) + d) % 2 ^ 64) m := by
    rw [index_tuple_add_count, if_pos hc] at ha
    exact (Option.some.inj ha).symm
  have hoff8 : sizeof_IndexTupleData ≤ IndexInfoFindTupleCountOffset K (t_info m) :=
    countOffset_ge_header K (t_info m)
  have hsz : sizeof_IndexTupleData = 8 := rfl
  have frame : ∀ x, x < IndexInfoFindTupleCountOffset K (t_info m) ∨
      IndexInfoFindTupleCountOffset K (t_info m) + 8 ≤ x →
      m1 x = m x ∧ m2 x = m x := by
    intro x hx
    rw [hm1, hm2]
    exact ⟨writeU64_frame _ _ m x hx, writeU64_frame _ _ m x hx⟩
  refine ⟨frame, ?_, ?_, ?_, ?_, ?_⟩
  · rw [hm1]
    exact t_info_writeU64 _ _ m (by omega)
  · rw [hm2]
    exact t_info_writeU64 _ _ m (by omega)
  · intro x hx
    exact frame x (by omega)
  · intro hn x hx1 hx2
    have hb := countOffset_ge_bitmap K (t_info m) hn
    exact frame x (by omega)
  · intro x hx
    have hd := countOffset_add_counter_le_dataOffset K (t_info m) hc
    exact frame x (by omega)

/-- Witness for C7: the concrete tuple with t_info = 0x2000, where
set_count stores 5 and add_count adds 3; the info word is unchanged. -/
theorem c7_counter_mutation_frame_witness :
    t_info (writeU64 8 (5 % 2 ^ 64) (fun a => if a = 7 then 32 else 0)) =
      t_info (fun a => if a = 7 then 32 else 0) :=
  (c7_counter_mutation_frame 32 5 3 (fun a => if a = 7 then 32 else 0)
      (writeU64 8 (5 % 2 ^ 64) (fun a => if a = 7 then 32 else 0))
      (writeU64 8 ((readU64 (fun a => if a = 7 then 32 else 0) 8 + 3) % 2 ^ 64)
        (fun a => if a = 7 then 32 else 0))
      rfl rfl).2.1

/-- Attribute descriptor slot used by index_getattr.  Modelled from the
spec: the attribute-descriptor collaborator (tupdesc.h) is outside
these sources; the only field the itup.h code reads is the shared
cached offset `attcacheoff`, with a non-negative value meaning
"known". -/
structure FormData where
  attcacheoff : Int
deriving DecidableEq

/-- Outcome of one index_getattr evaluation.  `fetch addr` is the O(1)
fast path reading the attribute value at byte offset `addr`;
`nullDatum` is the null return `(*isnull = true, (Datum) NULL)`;
`nocacheWalk` is the call to the full-walk routine
nocache_index_getattr; `assertFail` models the AssertMacro tripping;
`attrsOutOfBounds` marks an access to `attrs[attnum-1]` past the end of
the descriptor array (undefined behaviour in the C source, not a
fail-fast check). -/
inductive GetattrResult where
  | assertFail
  | fetch (addr : Int)
  | nullDatum
  | nocacheWalk
  | attrsOutOfBounds
deriving DecidableEq

/-- Null-bitmap test used by index_getattr.  Modelled from the spec:
att_isnull is defined outside these sources; per the spec's data model,
bit `i` of the bitmap (LSB-first within each byte) is set exactly when
attribute `i+1` is null.  `base` is the byte offset of the bitmap, which
the index_getattr code passes as sizeof(IndexTupleData). -/
def att_isnull (attIdx : Nat) (m : Nat → Nat) (base : Nat) : Bool :=
  (m (base + attIdx / 8)).testBit (attIdx % 8)

/-- index_getattr (itup.h lines 114-141), as the decision between its
four outcomes.  The AssertMacro keeps only the lower bound
`attnum > 0`; the pointer-validity half of the assertion is outside the
embedding (the isnull out-pointer always exists here). -/
def index_getattr (K : Nat) (m : Nat → Nat) (attnum : Int)
    (attrs : List FormData) : GetattrResult :=
  if ¬ attnum > 0 then .assertFail
  else if ¬ IndexTupleHasNulls (t_info m) then
    match attrs[(attnum - 1).toNat]? with
    | none => .attrsOutOfBounds
    | some a =>
      if a.attcacheoff ≥ 0 then
        .fetch ((IndexInfoFindDataOffset K (t_info m) : Int) + a.attcacheoff)
      else .nocacheWalk
  else
    if att_isnull (attnum - 1).toNat m sizeof_IndexTupleData then .nullDatum
    else .nocacheWalk

/-- Reduction of index_getattr on a tuple without nulls and an in-range
descriptor access. -/
theorem index_getattr_eq_nonulls (K : Nat) (m : Nat → Nat) (attnum : Int)
    (attrs : List FormData) (a : FormData) (hpos : 0 < attnum)
    (hn : IndexTupleHasNulls (t_info m) = false)
    (ha : attrs[(attnum - 1).toNat]? = some a) :
    index_getattr K m attnum attrs =
      if a.attcacheoff ≥ 0 then
        .fetch ((IndexInfoFindDataOffset K (t_info m) : Int) + a.attcacheoff)
      else .nocacheWalk := by
  unfold index_getattr
  rw [if_neg (by omega), if_pos (by simp [hn]), ha]

/-- Reduction of index_getattr on a tuple with nulls. -/
theorem index_getattr_eq_nulls (K : Nat) (m : Nat → Nat) (attnum : Int)
    (attrs : List FormData) (hpos : 0 < attnum)
    (hn : IndexTupleHasNulls (t_info m) = true) :
    index_getattr K m attnum attrs =
      if att_isnull (attnum - 1).toNat m sizeof_IndexTupleData then .nullDatum
      else .nocacheWalk := by
  unfold index_getattr
  rw [if_neg (by omega), if_neg (by simp [hn])]

/-- C2: for an in-range attribute number, index_getattr takes the O(1)
fast path reading at data offset + cached offset exactly when the tuple
has no nulls and the descriptor's cached offset is non-negative; in
every other case in which the requested attribute is non-null — in
particular whenever HAS_NULLS is set, whatever the cached offset — it
performs the full forward walk instead. -/
theorem c2_fast_path_iff (K : Nat) (m : Nat → Nat) (attnum : Int)
    (attrs : List FormData) (a : FormData) (h1 : 1 ≤ attnum)
    (ha : attrs[(attnum - 1).toNat]? = some a) :
    (index_getattr K m attnum attrs =
        .fetch ((IndexInfoFindDataOffset K (t_info m) : Int) + a.attcacheoff) ↔
      IndexTupleHasNulls (t_info m) = false ∧ 0 ≤ a.attcacheoff) ∧
    (IndexTupleHasNulls (t_info m) = true →
      att_isnull (attnum - 1).toNat m sizeof_IndexTupleData = false →
      index_getattr K m attnum attrs = .nocacheWalk) ∧
    (IndexTupleHasNulls (t_info m) = false → a.attcacheoff < 0 →
      index_getattr K m attnum attrs = .nocacheWalk) := by
  refine ⟨?_, ?_, ?_⟩
  · constructor
    · intro hres
      cases hn : IndexTupleHasNulls (t_info m)
      · refine ⟨rfl, ?_⟩
        rw [index_getattr_eq_nonulls K m attnum attrs a (by omega) hn ha] at hres
        by_contra hneg
        rw [if_neg (by omega)] at hres
        exact GetattrResult.noConfusion hres
      · exfalso
        rw [index_getattr_eq_nulls K m attnum attrs (by omega) hn] at hres
        cases hnull : att_isnull (attnum - 1).toNat m sizeof_IndexTupleData
        · rw [if_neg (by rw [hnull]; exact Bool.false_ne_true)] at hres
          exact GetattrResult.noConfusion hres
        · rw [if_pos hnull] at hres
          exact GetattrResult.noConfusion hres
    · rintro ⟨hn, hge⟩
      rw [index_getattr_eq_nonulls K m attnum attrs a (by omega) hn ha,
        if_pos (by omega)]
  · intro hn hnull
    rw [index_getattr_eq_nulls K m attnum attrs (by omega) hn,
      if_neg (by rw [hnull]; exact Bool.false_ne_true)]
  · intro hn hlt
    rw [index_getattr_eq_nonulls K m attnum attrs a (by omega) hn ha,
      if_neg (by omega)]

/-- Witness for C2: a no-nulls tuple, one descriptor with cached offset
4, attribute number 1. -/
theorem c2_fast_path_iff_witness :
    (index_getattr 32 (fun _ => 0) 1 [⟨4⟩] =
        .fetch ((IndexInfoFindDataOffset 32 (t_info (fun _ => 0)) : Int) + (4 : Int)) ↔
      IndexTupleHasNulls (t_info (fun _ => 0)) = false ∧ (0 : Int) ≤ 4) ∧
    (IndexTupleHasNulls (t_info (fun _ => 0)) = true →
      att_isnull ((1 - 1 : Int)).toNat (fun _ => 0) sizeof_IndexTupleData = false →
      index_getattr 32 (fun _ => 0) 1 [⟨4⟩] = .nocacheWalk) ∧
    (IndexTupleHasNulls (t_info (fun _ => 0)) = false → (4 : Int) < 0 →
      index_getattr 32 (fun _ => 0) 1 [⟨4⟩] = .nocacheWalk) :=
  c2_fast_path_iff 32 (fun _ => 0) 1 [⟨4⟩] ⟨4⟩ (by decide) rfl

/-- C3: on a tuple with HAS_NULLS set, when the requested attribute's
bitmap bit marks it null, index_getattr returns the null result without
reading any byte of the attribute-data region: the outcome is the same
for every memory that agrees with the tuple below the data offset. -/
theorem c3_null_bit_short_circuit (K : Nat) (m : Nat → Nat) (attnum : Int)
    (attrs : List FormData) (h1 : 1 ≤ attnum) (hK : (attnum - 1).toNat < K)
    (hn : IndexTupleHasNulls (t_info m) = true)
    (hb : att_isnull (attnum - 1).toNat m sizeof_IndexTupleData = true) :
    index_getattr K m attnum attrs = .nullDatum ∧
    ∀ m' : Nat → Nat,
      (∀ x, x < IndexInfoFindDataOffset K (t_info m) → m' x = m x) →
      index_getattr K m' attnum attrs = .nullDatum := by
  have hsz : sizeof_IndexTupleData = 8 := rfl
  have hbsz : sizeof_IndexAttributeBitMapData K = (K + 8 - 1) / 8 := rfl
  have hd := dataOffset_ge_header K (t_info m)
  have hdb := dataOffset_ge_bitmap K (t_info m) hn
  refine ⟨?_, ?_⟩
  · rw [index_getattr_eq_nulls K m attnum attrs (by omega) hn, if_pos hb]
  · intro m' hag
    have hinfo : t_info m' = t_info m := by
      unfold t_info readU16
      rw [hag 6 (by omega), hag 7 (by omega)]
    have hbmlt : sizeof_IndexTupleData + (attnum - 1).toNat / 8 <
        IndexInfoFindDataOffset K (t_info m) := by
      omega
    have hnull' : att_isnull (attnum - 1).toNat m' sizeof_IndexTupleData = true := by
      unfold att_isnull
      rw [hag (sizeof_IndexTupleData + (attnum - 1).toNat / 8) hbmlt]
      exact hb
    rw [index_getattr_eq_nulls K m' attnum attrs (by omega)
      (by rw [hinfo]; exact hn), if_pos hnull']

/-- Witness for C3: a concrete tuple with HAS_NULLS set (t_info bytes
0x00, 0x80) and bitmap bit 1 set, queried at attribute number 2. -/
theorem c3_null_bit_short_circuit_witness :
    index_getattr 32 (fun a => if a = 7 then 128 else if a = 8 then 2 else 0) 2 [] =
      .nullDatum :=
  (c3_null_bit_short_circuit 32
    (fun a => if a = 7 then 128 else if a = 8 then 2 else 0) 2 []
    (by decide) (by decide) (by decide) (by decide)).1

/-- Counterexample to C9 as stated: attribute number 2 is outside
[1, 1] for a single-descriptor array, yet on a tuple with HAS_NULLS set
and bitmap bit 1 set, index_getattr sails past its assertion (which
checks only attnum > 0) and returns the null value, rather than failing
fast. -/
theorem c9_counterexample :
    index_getattr 32 (fun a => if a = 7 then 128 else if a = 8 then 2 else 0) 2
        [⟨0⟩] = .nullDatum ∧
      GetattrResult.nullDatum ≠ GetattrResult.assertFail :=
  ⟨by decide, by decide⟩

/-- C9 amended: only attribute numbers below 1 trip the assertion in
index_getattr; the upper bound is not checked. -/
theorem c9_lower_bound_assert (K : Nat) (m : Nat → Nat) (attnum : Int)
    (attrs : List FormData) (h : attnum < 1) :
    index_getattr K m attnum attrs = .assertFail := by
  unfold index_getattr
  rw [if_pos (by omega)]

/-- Witness for the amended C9 at attribute number 0. -/
theorem c9_lower_bound_assert_witness :
    index_getattr 32 (fun _ => 0) 0 [] = .assertFail :=
  c9_lower_bound_assert 32 (fun _ => 0) 0 [] (by decide)

end XDB
